import Mathlib

/-!
Verification of the koradGui serial protocol codec (`koradserial.py`) and
background controller (`control.py`).

The Python source is shallowly embedded: pure computations become Lean
functions, the serial port becomes an explicit `SerialState` (a list of
pending input bytes plus a log of sent command strings), exceptions become
an explicit `PyErr` error type threaded through results, and the worker
thread of `PowerSupplyCtrl` becomes a step function on an explicit
controller state.  Python floats are modelled as `Rat`; every numeric value
exercised here (e.g. `5.00`, `0.500`) is exactly representable, so no
floating-point rounding behaviour is relied upon.
-/

deriving instance DecidableEq for Except

namespace Korad

/-- The exception kinds that can arise in the embedded fragment of the code:
`DisconnectedError` (raised by `Serial.send` on a failed write), Python's
`ValueError` (bad ASCII decode, enum lookup failure, tuple-unpack failure),
`IndexError` (indexing an empty reply), and `TypeError` (formatting `None`
with a float format spec). -/
inductive PyErr where
  | disconnectedError
  | valueError
  | indexError
  | typeError
  deriving DecidableEq, Repr

/-- `CommunicationError = (ValueError, IndexError)` in `koradserial.py`:
membership of an error in that tuple of exception types. -/
def PyErr.isCommunication : PyErr → Bool
  | .valueError => true
  | .indexError => true
  | _ => false

/-- Whether the error is the `DisconnectedError` type. -/
def PyErr.isDisconnected : PyErr → Bool
  | .disconnectedError => true
  | _ => false

/-- The error kinds caught by `PowerSupplyCtrl._call_error_handle`
(`except DisconnectedError` and `except CommunicationError`). -/
def PyErr.isCaught (e : PyErr) : Bool :=
  e.isDisconnected || e.isCommunication

/-- `ChannelMode` enum: values correspond to the `STATUS?` byte. -/
inductive ChannelMode where
  | constant_current
  | constant_voltage
  deriving DecidableEq, Repr

/-- Python `ChannelMode(value)`: enum lookup, `ValueError` on an
unassigned value. -/
def ChannelMode.fromValue : Nat → Except PyErr ChannelMode
  | 0 => .ok .constant_current
  | 1 => .ok .constant_voltage
  | _ => .error .valueError

/-- `Tracking` enum with values 0 (independent), 1 (series), 3 (parallel). -/
inductive Tracking where
  | independent
  | series
  | parallel
  deriving DecidableEq, Repr

/-- Python `Tracking(value)`: enum lookup, `ValueError` on an unassigned
value (in particular on 2, which is not a member). -/
def Tracking.fromValue : Nat → Except PyErr Tracking
  | 0 => .ok .independent
  | 1 => .ok .series
  | 3 => .ok .parallel
  | _ => .error .valueError

/-- The decoded status byte (`Status` in `koradserial.py`).
`OnOffState = bool`. -/
structure Status where
  raw : Nat
  channel1 : ChannelMode
  channel2 : ChannelMode
  tracking : Tracking
  beep : Bool
  ocp : Bool
  output : Bool
  ovp : Bool
  deriving DecidableEq, Repr

/-- `Status.__init__`: field-by-field decode of the status byte, in source
order.  `ChannelMode(status & 1)`, `ChannelMode((status >> 1) & 1)`,
`Tracking((status >> 2) & 3)`, then `bool` coercions of single bits. -/
def Status.decode (status : Nat) : Except PyErr Status := do
  let c1 ← ChannelMode.fromValue (status &&& 1)
  let c2 ← ChannelMode.fromValue ((status >>> 1) &&& 1)
  let tr ← Tracking.fromValue ((status >>> 2) &&& 3)
  .ok { raw := status
        channel1 := c1
        channel2 := c2
        tracking := tr
        beep := (status >>> 4) &&& 1 = 1
        ocp := (status >>> 5) &&& 1 = 1
        output := (status >>> 6) &&& 1 = 1
        ovp := (status >>> 7) &&& 1 = 1 }

/-- Independent re-derivation of the status fields from the spec's bit
layout (bit0 = ch1 mode, bit1 = ch2 mode, bits 2-3 = tracking with
00 independent / 01 series / 11 parallel, bit4 = beep, bit5 = OCP,
bit6 = output, bit7 = OVP), for comparison with `Status.decode`. -/
def Status.specDerive (b : Nat) : Status :=
  { raw := b
    channel1 := if b.testBit 0 then .constant_voltage else .constant_current
    channel2 := if b.testBit 1 then .constant_voltage else .constant_current
    tracking :=
      if b.testBit 3 then .parallel
      else if b.testBit 2 then .series
      else .independent
    beep := b.testBit 4
    ocp := b.testBit 5
    output := b.testBit 6
    ovp := b.testBit 7 }

/-- Model of Python `float(s)` restricted to the plain decimal forms the
device produces: optional surrounding whitespace, an optional sign, then
digits with an optional decimal point (at least one digit overall).
Exponent, infinity and NaN forms, which the device never sends, are
omitted; on every string rejected here Python's `float` raises
`ValueError`, modelled as `none`. -/
def pyfloat (s : String) : Option Rat :=
  let ws : List Char := [' ', '\t', '\n', '\r']
  let cs := (s.toList.dropWhile (fun c => ws.contains c)).reverse
  let cs := (cs.dropWhile (fun c => ws.contains c)).reverse
  let (sign, body) :=
    match cs with
    | '+' :: rest => ((1 : Int), rest)
    | '-' :: rest => ((-1 : Int), rest)
    | rest => ((1 : Int), rest)
  let intPart := body.takeWhile Char.isDigit
  let rest := body.drop intPart.length
  let (fracPart, tail) :=
    match rest with
    | '.' :: afterDot => (afterDot.takeWhile Char.isDigit, afterDot.drop (afterDot.takeWhile Char.isDigit).length)
    | other => ([], other)
  if tail ≠ [] ∨ (intPart = [] ∧ fracPart = []) then none
  else
    let digitsVal : List Char → Nat := fun l => l.foldl (fun a c => 10 * a + (c.toNat - 48)) 0
    let num : Int := sign * ((digitsVal intPart) * 10 ^ fracPart.length + digitsVal fracPart)
    some (mkRat num (10 ^ fracPart.length))

/-- `float_or_none(value)`: `float(value)` with `TypeError`/`ValueError`
caught and turned into `None`.  For string input, `float` can only raise
`ValueError`, so this is exactly the total version of `pyfloat`. -/
def float_or_none (s : String) : Option Rat :=
  pyfloat s

/-- The state of `KoradSerial.Serial`: the bytes waiting to be read from
the port, the log of texts passed to `Serial.send` (in order), whether the
next physical write raises `SerialException`, and whether the port is
open. -/
structure SerialState where
  input : List Nat
  sent : List String
  writeFails : Bool
  portOpen : Bool
  deriving DecidableEq, Repr

/-- The collection loop of `Serial.read_string`: repeatedly
`read_character()` (head byte decoded as ASCII; a byte ≥ 128 raises
`ValueError` from the `UnicodeDecodeError` handler; an empty port read
yields a zero-length string ending the loop), stop on a zero byte or, when
`fixed_length` is given, once that many characters are collected.  Returns
the collected characters (or the error) together with the bytes left on
the port. -/
def read_string_loop (input : List Nat) (fixed_length : Option Nat)
    (acc : List Char) : Except PyErr (List Char) × List Nat :=
  match input with
  | [] => (.ok acc, [])
  | b :: rest =>
    if b ≥ 128 then (.error .valueError, rest)
    else if b = 0 then (.ok acc, rest)
    else
      let acc2 := acc ++ [Char.ofNat b]
      if fixed_length = some acc2.length then (.ok acc2, rest)
      else read_string_loop rest fixed_length acc2

/-- The newline trimming at the end of `read_string`: `result[0]` on an
empty list raises `IndexError`; one leading and, if the remainder is
nonempty, one trailing `"\n"` are popped (`result[-1]` on a list emptied
by the first pop also raises `IndexError`). -/
def strip_result (acc : List Char) : Except PyErr (List Char) :=
  match acc with
  | [] => .error .indexError
  | c0 :: rest0 =>
    let r1 := if c0 = '\n' then rest0 else c0 :: rest0
    match r1.getLast? with
    | none => .error .indexError
    | some clast => .ok (if clast = '\n' then r1.dropLast else r1)

/-- `Serial.read_string(fixed_length)`: collect characters, then strip the
boundary newlines and join.  Returns the string (or error) and the bytes
remaining on the port afterwards. -/
def read_string (input : List Nat) (fixed_length : Option Nat) :
    Except PyErr String × List Nat :=
  match read_string_loop input fixed_length [] with
  | (.error e, rest) => (.error e, rest)
  | (.ok acc, rest) =>
    match strip_result acc with
    | .error e => (.error e, rest)
    | .ok cs => (.ok (String.mk cs), rest)

/-- `Serial.send(text)`: after the settle delay, write `b"\r" + text`; a
`SerialException` from the write becomes `DisconnectedError`. -/
def send (d : SerialState) (text : String) : Except PyErr Unit × SerialState :=
  if d.writeFails then (.error .disconnectedError, d)
  else (.ok (), { d with sent := d.sent ++ [text] })

/-- `Serial.read_byte()`: read one byte; a timeout makes `c[0]` raise
`IndexError`. -/
def read_byte (d : SerialState) : Except PyErr Nat × SerialState :=
  match d.input with
  | [] => (.error .indexError, d)
  | b :: rest => (.ok b, { d with input := rest })

/-- `Serial.send_receive(text, fixed_length)`: `send` then `read_string`. -/
def send_receive (d : SerialState) (text : String) (fixed_length : Option Nat) :
    Except PyErr String × SerialState :=
  match send d text with
  | (.error e, d1) => (.error e, d1)
  | (.ok _, d1) =>
    match read_string d1.input fixed_length with
    | (r, input2) => (r, { d1 with input := input2 })

/-- `round(q * 10^prec)` as an integer, computed on the numerator and
denominator with truncating division (`Int.tdiv`), so the formula rounds
half away from zero for either sign (for the negative case, truncation of
`(2n - d) / 2d` mirrors the positive case).  Python's float formatting
breaks ties to even at the binary level; no theorem here evaluates a tie,
and on tie-free exactly representable values the two agree. -/
def scaledRound (q : Rat) (prec : Nat) : Int :=
  let n := q.num * ((10 : Int) ^ prec)
  let d := (q.den : Int)
  Int.tdiv (2 * n + (if n < 0 then -d else d)) (2 * d)

/-- Python `"{:0{width}.{prec}f}".format(value)`: fixed-point rendering
with `prec` digits after the decimal point, zero-padded (after the sign)
to a minimum total width. -/
def formatFixed (width prec : Nat) (q : Rat) : String :=
  let n := scaledRound q prec
  let a := n.natAbs
  let intDigits := Nat.toDigits 10 (a / 10 ^ prec)
  let fracDigits := Nat.toDigits 10 (a % 10 ^ prec)
  let fracPadded := List.replicate (prec - fracDigits.length) '0' ++ fracDigits
  let body := intDigits ++ (if prec = 0 then [] else '.' :: fracPadded)
  let signChars := if n < 0 then ['-'] else ([] : List Char)
  let padLen := width - (signChars.length + body.length)
  String.mk (signChars ++ List.replicate padLen '0' ++ body)

/-- Model of Python `str.split("\n")`: split on every newline, keeping
empty segments (so a string without newlines yields one segment). -/
def split_nl (cs : List Char) : List String :=
  (cs.foldr
    (fun c acc =>
      match acc with
      | [] => [[c]]
      | s :: rest => if c = '\n' then [] :: s :: rest else (c :: s) :: rest)
    [[]]).map (fun l => String.mk l)

/-- `Channel.voltage` getter: `send_receive("VSET{n}?", fixed_length=5)`
wrapped in `float_or_none`. -/
def ch_voltage_get (n : Nat) (d : SerialState) :
    Except PyErr (Option Rat) × SerialState :=
  match send_receive d ("VSET" ++ toString n ++ "?") (some 5) with
  | (.error e, d1) => (.error e, d1)
  | (.ok r, d1) => (.ok (float_or_none r), d1)

/-- `Channel.voltage` setter: `send("VSET{n}:{value:05.2f}")`.  The format
string is built before the send; formatting `None` raises `TypeError`. -/
def ch_voltage_set (n : Nat) (v : Option Rat) (d : SerialState) :
    Except PyErr Unit × SerialState :=
  match v with
  | none => (.error .typeError, d)
  | some q => send d ("VSET" ++ toString n ++ ":" ++ formatFixed 5 2 q)

/-- `Channel.current` getter: `send_receive("ISET{n}?", fixed_length=6)`;
the 6th character is the stray byte of the previous exchange, so only
`result[:5]` is parsed. -/
def ch_current_get (n : Nat) (d : SerialState) :
    Except PyErr (Option Rat) × SerialState :=
  match send_receive d ("ISET" ++ toString n ++ "?") (some 6) with
  | (.error e, d1) => (.error e, d1)
  | (.ok r, d1) => (.ok (float_or_none (r.take 5)), d1)

/-- `Channel.current` setter: `send("ISET{n}:{value:05.3f}")`. -/
def ch_current_set (n : Nat) (v : Option Rat) (d : SerialState) :
    Except PyErr Unit × SerialState :=
  match v with
  | none => (.error .typeError, d)
  | some q => send d ("ISET" ++ toString n ++ ":" ++ formatFixed 5 3 q)

/-- `Channel.output_voltage`: `send_receive("VOUT{n}?", fixed_length=5)`
wrapped in `float_or_none`. -/
def ch_output_voltage (n : Nat) (d : SerialState) :
    Except PyErr (Option Rat) × SerialState :=
  match send_receive d ("VOUT" ++ toString n ++ "?") (some 5) with
  | (.error e, d1) => (.error e, d1)
  | (.ok r, d1) => (.ok (float_or_none r), d1)

/-- `Channel.output_current`: `send_receive("IOUT{n}?", fixed_length=5)`
wrapped in `float_or_none`. -/
def ch_output_current (n : Nat) (d : SerialState) :
    Except PyErr (Option Rat) × SerialState :=
  match send_receive d ("IOUT" ++ toString n ++ "?") (some 5) with
  | (.error e, d1) => (.error e, d1)
  | (.ok r, d1) => (.ok (float_or_none r), d1)

/-- `Channel.output_pair`: one combined round trip
`send_receive("VOUT{n}?\rIOUT{n}?", fixed_length=11)`, split on the
internal newline; the unpack `vs, cs = result.split("\n")` raises
`ValueError` unless there are exactly two fields. -/
def ch_output_pair (n : Nat) (d : SerialState) :
    Except PyErr (Option Rat × Option Rat) × SerialState :=
  match send_receive d ("VOUT" ++ toString n ++ "?\rIOUT" ++ toString n ++ "?") (some 11) with
  | (.error e, d1) => (.error e, d1)
  | (.ok r, d1) =>
    match split_nl r.toList with
    | [vs, cs] => (.ok (float_or_none vs, float_or_none cs), d1)
    | _ => (.error .valueError, d1)

/-- `OnOffButton.set(state)`: dispatch to the stored `on`/`off` command
string and send it. -/
def button_set (on_command off_command : String) (state : Bool)
    (d : SerialState) : Except PyErr Unit × SerialState :=
  send d (if state then on_command else off_command)

/-- `KoradSerial.status` property: `send("STATUS?")`, `read_byte()`,
`Status(status)`. -/
def ps_status (d : SerialState) : Except PyErr Status × SerialState :=
  match send d "STATUS?" with
  | (.error e, d1) => (.error e, d1)
  | (.ok _, d1) =>
    match read_byte d1 with
    | (.error e, d2) => (.error e, d2)
    | (.ok b, d2) => (Status.decode b, d2)

/-- `Cmd` enum of `control.py`. -/
inductive Cmd where
  | STOP
  | READ
  | WRITE
  deriving DecidableEq, Repr

/-- `CmdOption` enum of `control.py`. -/
inductive CmdOption where
  | SETPOINT
  | OUTPUT_READING
  | LOCK
  | STATUS
  deriving DecidableEq, Repr

/-- `Event` enum of `control.py`; queue entries pair the event with its
payload (the caught exception for `DISCONNECTED`, `None` for
`READ_FINISHED`). -/
inductive Event where
  | DISCONNECTED
  | READ_FINISHED
  deriving DecidableEq, Repr

/-- Instrumentation record for one invocation of
`_call_error_handle`: whether it is the streaming poll call site
(`_thread_main` line 55) or the command-execution call site (line 72), and
the value the `pending` flag holds while the wrapped device call runs. -/
structure CallRec where
  fromStream : Bool
  pend : Bool
  deriving DecidableEq, Repr

/-- The state of a `PowerSupplyCtrl` instance.  The command/event/data
queues are FIFO lists (front = next to dequeue), `hasThread` models
`_thread is not None`, and `callLog` is the instrumentation trace of
`_call_error_handle` invocations (not a field of the Python object). -/
structure CtrlState where
  stream_output : Bool
  voltage : Option Rat
  current : Option Rat
  voltage_output : Option Rat
  current_output : Option Rat
  lock : Bool
  beep : Bool
  ocp : Bool
  ovp : Bool
  output : Bool
  cmd_queue : List (Cmd × List CmdOption)
  event_queue : List (Event × Option PyErr)
  data_queue : List (Option Rat × Option Rat)
  hasThread : Bool
  closed : Bool
  pending : Bool
  callLog : List CallRec
  deriving DecidableEq, Repr

/-- Sequencing of the option blocks of `_read`/`_write`: a block guarded
by its option flag runs only when the previous blocks succeeded (a raised
exception aborts the rest of the method, keeping the mutations made so
far). -/
def seqBlock (flag : Bool)
    (block : CtrlState → SerialState → Except PyErr Unit × CtrlState × SerialState)
    (prev : Except PyErr Unit × CtrlState × SerialState) :
    Except PyErr Unit × CtrlState × SerialState :=
  match prev with
  | (.error e, c, d) => (.error e, c, d)
  | (.ok _, c, d) => if flag then block c d else (.ok (), c, d)

/-- The `CmdOption.STATUS` block of `_read`: query the status byte and
mirror its `ocp`/`ovp`/`output` fields. -/
def read_status_block (c : CtrlState) (d : SerialState) :
    Except PyErr Unit × CtrlState × SerialState :=
  match ps_status d with
  | (.error e, d1) => (.error e, c, d1)
  | (.ok st, d1) =>
    (.ok (), { c with ocp := st.ocp, ovp := st.ovp, output := st.output }, d1)

/-- The `CmdOption.SETPOINT` block of `_read`: read the voltage setpoint
into `self.voltage`, then the current setpoint into `self.current` (the
first assignment persists if the second read raises). -/
def read_setpoint_block (c : CtrlState) (d : SerialState) :
    Except PyErr Unit × CtrlState × SerialState :=
  match ch_voltage_get 1 d with
  | (.error e, d1) => (.error e, c, d1)
  | (.ok v, d1) =>
    let c1 := { c with voltage := v }
    match ch_current_get 1 d1 with
    | (.error e, d2) => (.error e, c1, d2)
    | (.ok i, d2) => (.ok (), { c1 with current := i }, d2)

/-- The `CmdOption.OUTPUT_READING` block of `_read`: one combined
output-pair read, unpacked into `voltage_output` and `current_output`. -/
def read_output_block (c : CtrlState) (d : SerialState) :
    Except PyErr Unit × CtrlState × SerialState :=
  match ch_output_pair 1 d with
  | (.error e, d1) => (.error e, c, d1)
  | (.ok (v, i), d1) =>
    (.ok (), { c with voltage_output := v, current_output := i }, d1)

/-- `PowerSupplyCtrl._read(options)`: the three option blocks in source
order (STATUS, SETPOINT, OUTPUT_READING). -/
def ctrl_read (c : CtrlState) (d : SerialState) (options : List CmdOption) :
    Except PyErr Unit × CtrlState × SerialState :=
  seqBlock (CmdOption.OUTPUT_READING ∈ options) read_output_block
    (seqBlock (CmdOption.SETPOINT ∈ options) read_setpoint_block
      (seqBlock (CmdOption.STATUS ∈ options) read_status_block (.ok (), c, d)))

/-- The `CmdOption.STATUS` block of `_write`: push the `ocp`, `ovp` and
`output` toggles, in that order. -/
def write_status_block (c : CtrlState) (d : SerialState) :
    Except PyErr Unit × CtrlState × SerialState :=
  match button_set "OCP1" "OCP0" c.ocp d with
  | (.error e, d1) => (.error e, c, d1)
  | (.ok _, d1) =>
    match button_set "OVP1" "OVP0" c.ovp d1 with
    | (.error e, d2) => (.error e, c, d2)
    | (.ok _, d2) =>
      match button_set "OUT1" "OUT0" c.output d2 with
      | (r, d3) => (r, c, d3)

/-- The `CmdOption.LOCK` block of `_write`: push the locally tracked lock
state. -/
def write_lock_block (c : CtrlState) (d : SerialState) :
    Except PyErr Unit × CtrlState × SerialState :=
  match button_set "LOCK1" "LOCK0" c.lock d with
  | (r, d1) => (r, c, d1)

/-- The `CmdOption.SETPOINT` block of `_write`: program the desired
voltage then the desired current. -/
def write_setpoint_block (c : CtrlState) (d : SerialState) :
    Except PyErr Unit × CtrlState × SerialState :=
  match ch_voltage_set 1 c.voltage d with
  | (.error e, d1) => (.error e, c, d1)
  | (.ok _, d1) =>
    match ch_current_set 1 c.current d1 with
    | (r, d2) => (r, c, d2)

/-- `PowerSupplyCtrl._write(options)`: the three option blocks in source
order (STATUS, LOCK, SETPOINT).  It never mutates controller fields;
sends made before an exception persist in the serial log. -/
def ctrl_write (c : CtrlState) (d : SerialState) (options : List CmdOption) :
    Except PyErr Unit × CtrlState × SerialState :=
  seqBlock (CmdOption.SETPOINT ∈ options) write_setpoint_block
    (seqBlock (CmdOption.LOCK ∈ options) write_lock_block
      (seqBlock (CmdOption.STATUS ∈ options) write_status_block (.ok (), c, d)))

/-- The entry of `_call_error_handle`: `if set_pending: self._pending =
True`, then (instrumentation) record the call site and the `pending`
value in force while `func` runs. -/
def ceh_enter (set_pending fromStream : Bool) (c : CtrlState) : CtrlState :=
  let c1 := if set_pending then { c with pending := true } else c
  { c1 with callLog := c1.callLog ++ [⟨fromStream, c1.pending⟩] }

/-- The exit of `_call_error_handle`: `DisconnectedError` and
`CommunicationError` are caught and published as a `DISCONNECTED` event;
any other exception propagates (returned as `some e`); the `finally`
block clears `pending` when `set_pending` is set, in every case. -/
def ceh_exit (set_pending : Bool) (r : Except PyErr Unit) (c : CtrlState) :
    Option PyErr × CtrlState :=
  let (uncaught, c1) :=
    match r with
    | .ok _ => (none, c)
    | .error e =>
      if e.isCaught then
        (none, { c with event_queue := c.event_queue ++ [(Event.DISCONNECTED, some e)] })
      else (some e, c)
  (uncaught, if set_pending then { c1 with pending := false } else c1)

/-- `PowerSupplyCtrl._call_error_handle(func, options, set_pending)`. -/
def call_error_handle (set_pending fromStream : Bool)
    (func : CtrlState → SerialState → Except PyErr Unit × CtrlState × SerialState)
    (c : CtrlState) (d : SerialState) : Option PyErr × CtrlState × SerialState :=
  match func (ceh_enter set_pending fromStream c) d with
  | (r, c2, d2) =>
    match ceh_exit set_pending r c2 with
    | (u, c3) => (u, c3, d2)

/-- The `self._data_queue.put((self.voltage_output, self.current_output))`
after the streaming poll. -/
def put_sample (c : CtrlState) : CtrlState :=
  { c with data_queue := c.data_queue ++ [(c.voltage_output, c.current_output)] }

/-- The outcome of one iteration of the `_thread_main` loop body:
continue looping, `return` (stop command), or an uncaught exception
ending the thread. -/
inductive StepRes where
  | cont (c : CtrlState) (d : SerialState)
  | stop (c : CtrlState) (d : SerialState)
  | crash (e : PyErr) (c : CtrlState) (d : SerialState)
  deriving DecidableEq, Repr

/-- Controller state reached after a loop iteration, whatever the
outcome. -/
def StepRes.ctrl : StepRes → CtrlState
  | .cont c _ => c
  | .stop c _ => c
  | .crash _ c _ => c

/-- Serial state reached after a loop iteration, whatever the outcome. -/
def StepRes.dev : StepRes → SerialState
  | .cont _ d => d
  | .stop _ d => d
  | .crash _ _ d => d

/-- The streaming poll at the top of the `_thread_main` loop body: when
`stream_output` is set, an OUTPUT_READING read through
`_call_error_handle` (without `set_pending`), followed by an
unconditional sample put.  An uncaught exception from the poll propagates
(first component `some e`) before the sample is queued. -/
def worker_poll (c : CtrlState) (d : SerialState) :
    Option PyErr × CtrlState × SerialState :=
  if c.stream_output then
    match call_error_handle false true
        (fun c' d' => ctrl_read c' d' [CmdOption.OUTPUT_READING]) c d with
    | (some e, c1, d1) => (some e, c1, d1)
    | (none, c1, d1) => (none, put_sample c1, d1)
  else (none, c, d)

/-- Execution of one dequeued command in `_thread_main`: `return` on
STOP; otherwise `pending = True`, dispatch through the
`{Cmd.READ: self._read, Cmd.WRITE: self._write}` map via
`_call_error_handle(..., set_pending=True)`, and a `READ_FINISHED` event
for read commands. -/
def worker_exec (cmd : Cmd) (options : List CmdOption)
    (c : CtrlState) (d : SerialState) : StepRes :=
  match cmd with
  | Cmd.STOP => StepRes.stop c d
  | Cmd.READ =>
    let c3 := { c with pending := true }
    match call_error_handle true false
        (fun c' d' => ctrl_read c' d' options) c3 d with
    | (some e, c4, d4) => StepRes.crash e c4 d4
    | (none, c4, d4) =>
      StepRes.cont
        { c4 with event_queue := c4.event_queue ++ [(Event.READ_FINISHED, none)] } d4
  | Cmd.WRITE =>
    let c3 := { c with pending := true }
    match call_error_handle true false
        (fun c' d' => ctrl_write c' d' options) c3 d with
    | (some e, c4, d4) => StepRes.crash e c4 d4
    | (none, c4, d4) => StepRes.cont c4 d4

/-- One iteration of `PowerSupplyCtrl._thread_main`: the streaming poll,
then one command-queue dequeue (an empty queue is the `Empty` timeout,
looping back to the top) and command execution. -/
def worker_step (c : CtrlState) (d : SerialState) : StepRes :=
  match worker_poll c d with
  | (some e, c1, d1) => StepRes.crash e c1 d1
  | (none, c1, d1) =>
    match c1.cmd_queue with
    | [] => StepRes.cont c1 d1
    | (cmd, options) :: rest =>
      worker_exec cmd options { c1 with cmd_queue := rest } d1

/-- Result of running the worker loop for a bounded number of
iterations. -/
inductive RunRes where
  | outOfFuel (c : CtrlState) (d : SerialState)
  | stopped (c : CtrlState) (d : SerialState)
  | crashed (e : PyErr) (c : CtrlState) (d : SerialState)
  deriving DecidableEq, Repr

/-- Run `worker_step` up to `fuel` iterations (the Python loop is
unbounded; `outOfFuel` only means the bound was reached). -/
def worker_run : Nat → CtrlState → SerialState → RunRes
  | 0, c, d => .outOfFuel c d
  | fuel + 1, c, d =>
    match worker_step c d with
    | .cont c1 d1 => worker_run fuel c1 d1
    | .stop c1 d1 => .stopped c1 d1
    | .crash e c1 d1 => .crashed e c1 d1

/-- `PowerSupplyCtrl.close()`: a no-op when `_closed` is already set;
otherwise set `_closed`, and if a worker exists enqueue `(STOP, set())`,
join it (modelled by running the loop to its exit; `join` also returns if
the thread died of an exception), drop the thread, and close the
transport.  `none` means the bounded join did not complete within
`fuel`. -/
def ctrl_close (fuel : Nat) (c : CtrlState) (d : SerialState) :
    Option (CtrlState × SerialState) :=
  if c.closed then some (c, d)
  else
    let c1 := { c with closed := true }
    if c1.hasThread then
      let c2 := { c1 with cmd_queue := c1.cmd_queue ++ [(Cmd.STOP, [])] }
      match worker_run fuel c2 d with
      | .outOfFuel _ _ => none
      | .stopped c3 d3 => some ({ c3 with hasThread := false }, { d3 with portOpen := false })
      | .crashed _ c3 d3 => some ({ c3 with hasThread := false }, { d3 with portOpen := false })
    else some (c1, { d with portOpen := false })

/-- The uncaught exception of a bounded run, if it ended in one. -/
def RunRes.errOf : RunRes → Option PyErr
  | .crashed e _ _ => some e
  | _ => none

/-- Whether a loop iteration ended with the loop still running. -/
def StepRes.isCont : StepRes → Bool
  | .cont _ _ => true
  | _ => false

/-- A freshly started controller: the initial field values of
`PowerSupplyCtrl.__init__` (after `start()`), with an empty command
queue. -/
def ctrlInit : CtrlState :=
  { stream_output := false, voltage := some 0, current := some 0,
    voltage_output := some 0, current_output := some 0,
    lock := false, beep := false, ocp := false, ovp := false, output := false,
    cmd_queue := [], event_queue := [], data_queue := [],
    hasThread := true, closed := false, pending := false, callLog := [] }

/-- The controller fields `_read` and `_write` never touch. -/
def sameCtrlMeta (a b : CtrlState) : Prop :=
  a.stream_output = b.stream_output ∧ a.cmd_queue = b.cmd_queue ∧
  a.event_queue = b.event_queue ∧ a.data_queue = b.data_queue ∧
  a.hasThread = b.hasThread ∧ a.closed = b.closed ∧
  a.pending = b.pending ∧ a.callLog = b.callLog

lemma sameCtrlMeta_refl (a : CtrlState) : sameCtrlMeta a a := by
  simp [sameCtrlMeta]

lemma sameCtrlMeta_trans {a b c : CtrlState} (h1 : sameCtrlMeta a b)
    (h2 : sameCtrlMeta b c) : sameCtrlMeta a c := by
  obtain ⟨h11, h12, h13, h14, h15, h16, h17, h18⟩ := h1
  obtain ⟨h21, h22, h23, h24, h25, h26, h27, h28⟩ := h2
  exact ⟨h11.trans h21, h12.trans h22, h13.trans h23, h14.trans h24,
    h15.trans h25, h16.trans h26, h17.trans h27, h18.trans h28⟩

lemma read_status_block_meta (c : CtrlState) (d : SerialState) :
    sameCtrlMeta (read_status_block c d).2.1 c := by
  unfold read_status_block
  split <;> simp [sameCtrlMeta]

lemma read_setpoint_block_meta (c : CtrlState) (d : SerialState) :
    sameCtrlMeta (read_setpoint_block c d).2.1 c := by
  unfold read_setpoint_block
  split <;> (try split) <;> simp [sameCtrlMeta]

lemma read_output_block_meta (c : CtrlState) (d : SerialState) :
    sameCtrlMeta (read_output_block c d).2.1 c := by
  unfold read_output_block
  split <;> simp [sameCtrlMeta]

lemma write_status_block_snd (c : CtrlState) (d : SerialState) :
    (write_status_block c d).2.1 = c := by
  unfold write_status_block
  split <;> (try split) <;> (try split) <;> simp

lemma write_lock_block_snd (c : CtrlState) (d : SerialState) :
    (write_lock_block c d).2.1 = c := by
  unfold write_lock_block
  split
  simp

lemma write_setpoint_block_snd (c : CtrlState) (d : SerialState) :
    (write_setpoint_block c d).2.1 = c := by
  unfold write_setpoint_block
  split <;> (try split) <;> simp

lemma seqBlock_meta {c0 : CtrlState} (flag : Bool)
    (block : CtrlState → SerialState → Except PyErr Unit × CtrlState × SerialState)
    (hb : ∀ c d, sameCtrlMeta (block c d).2.1 c)
    (prev : Except PyErr Unit × CtrlState × SerialState)
    (hp : sameCtrlMeta prev.2.1 c0) :
    sameCtrlMeta (seqBlock flag block prev).2.1 c0 := by
  rcases prev with ⟨r, cp, dp⟩
  cases r with
  | error e => simpa [seqBlock] using hp
  | ok v =>
    simp only [seqBlock]
    by_cases hf : flag
    · simp only [hf, if_true]
      exact sameCtrlMeta_trans (hb cp dp) hp
    · simpa [hf] using hp

lemma ctrl_read_meta (c : CtrlState) (d : SerialState) (opts : List CmdOption) :
    sameCtrlMeta (ctrl_read c d opts).2.1 c := by
  unfold ctrl_read
  apply seqBlock_meta _ _ read_output_block_meta
  apply seqBlock_meta _ _ read_setpoint_block_meta
  apply seqBlock_meta _ _ read_status_block_meta
  exact sameCtrlMeta_refl c

lemma ctrl_write_snd (c : CtrlState) (d : SerialState) (opts : List CmdOption) :
    (ctrl_write c d opts).2.1 = c := by
  have hseq : ∀ (flag : Bool) block
      (prev : Except PyErr Unit × CtrlState × SerialState),
      (∀ c' d', (block c' d').2.1 = c') →
      (seqBlock flag block prev).2.1 = prev.2.1 := by
    intro flag block prev hb
    rcases prev with ⟨r, cp, dp⟩
    cases r with
    | error e => simp [seqBlock]
    | ok v =>
      simp only [seqBlock]
      by_cases hf : flag <;> simp [hf, hb]
  unfold ctrl_write
  rw [hseq _ _ _ write_setpoint_block_snd, hseq _ _ _ write_lock_block_snd,
    hseq _ _ _ write_status_block_snd]

lemma ceh_enter_fields (sp fs : Bool) (c : CtrlState) :
    (ceh_enter sp fs c).callLog
        = c.callLog ++ [⟨fs, if sp then true else c.pending⟩] ∧
    (ceh_enter sp fs c).pending = (if sp then true else c.pending) ∧
    (ceh_enter sp fs c).closed = c.closed ∧
    (ceh_enter sp fs c).hasThread = c.hasThread ∧
    (ceh_enter sp fs c).cmd_queue = c.cmd_queue ∧
    (ceh_enter sp fs c).stream_output = c.stream_output ∧
    (ceh_enter sp fs c).event_queue = c.event_queue ∧
    (ceh_enter sp fs c).data_queue = c.data_queue := by
  cases sp <;> simp [ceh_enter]

lemma ceh_ok (sp fs : Bool)
    (func : CtrlState → SerialState → Except PyErr Unit × CtrlState × SerialState)
    (c : CtrlState) (d : SerialState) (c2 : CtrlState) (d2 : SerialState)
    (h : func (ceh_enter sp fs c) d = (.ok (), c2, d2)) :
    call_error_handle sp fs func c d
      = (none, if sp then { c2 with pending := false } else c2, d2) := by
  unfold call_error_handle
  rw [h]
  cases sp <;> simp [ceh_exit]

lemma ceh_caught (sp fs : Bool)
    (func : CtrlState → SerialState → Except PyErr Unit × CtrlState × SerialState)
    (c : CtrlState) (d : SerialState) (e : PyErr) (c2 : CtrlState) (d2 : SerialState)
    (h : func (ceh_enter sp fs c) d = (.error e, c2, d2))
    (hc : e.isCaught = true) :
    call_error_handle sp fs func c d
      = (none,
         if sp then
           { c2 with
             event_queue := c2.event_queue ++ [(Event.DISCONNECTED, some e)]
             pending := false }
         else
           { c2 with event_queue := c2.event_queue ++ [(Event.DISCONNECTED, some e)] },
         d2) := by
  unfold call_error_handle
  rw [h]
  cases sp <;> simp [ceh_exit, hc]

lemma ceh_uncaught (sp fs : Bool)
    (func : CtrlState → SerialState → Except PyErr Unit × CtrlState × SerialState)
    (c : CtrlState) (d : SerialState) (e : PyErr) (c2 : CtrlState) (d2 : SerialState)
    (h : func (ceh_enter sp fs c) d = (.error e, c2, d2))
    (hc : e.isCaught = false) :
    call_error_handle sp fs func c d
      = (some e, if sp then { c2 with pending := false } else c2, d2) := by
  unfold call_error_handle
  rw [h]
  cases sp <;> simp [ceh_exit, hc]

lemma worker_poll_spec (c : CtrlState) (d : SerialState) :
    (worker_poll c d).2.1.closed = c.closed ∧
    (worker_poll c d).2.1.hasThread = c.hasThread ∧
    (worker_poll c d).2.1.cmd_queue = c.cmd_queue ∧
    (worker_poll c d).2.1.stream_output = c.stream_output ∧
    (worker_poll c d).2.1.pending = c.pending ∧
    (worker_poll c d).2.1.callLog
      = c.callLog ++ (if c.stream_output then [⟨true, c.pending⟩] else []) ∧
    (∀ e, (worker_poll c d).1 = some e → e.isCaught = false) := by
  by_cases hs : c.stream_output
  case neg => simp [worker_poll, hs]
  case pos =>
    obtain ⟨hl, hp, hc, ht, hq, hso, hev, hdq⟩ := ceh_enter_fields false true c
    have meta := ctrl_read_meta (ceh_enter false true c) d [CmdOption.OUTPUT_READING]
    rcases h : ctrl_read (ceh_enter false true c) d [CmdOption.OUTPUT_READING]
      with ⟨r, cr, dr⟩
    rw [h] at meta
    obtain ⟨m1, m2, m3, m4, m5, m6, m7, m8⟩ := meta
    cases r with
    | ok v =>
      cases v
      rw [worker_poll, if_pos hs,
        ceh_ok false true (fun c' d' => ctrl_read c' d' [CmdOption.OUTPUT_READING]) c d cr dr h]
      simp_all [put_sample]
    | error e =>
      by_cases hcaught : e.isCaught
      · rw [worker_poll, if_pos hs,
          ceh_caught false true (fun c' d' => ctrl_read c' d' [CmdOption.OUTPUT_READING]) c d e cr dr h hcaught]
        simp_all [put_sample]
      · rw [worker_poll, if_pos hs,
          ceh_uncaught false true (fun c' d' => ctrl_read c' d' [CmdOption.OUTPUT_READING]) c d e cr dr h (by simpa using hcaught)]
        simp_all

lemma worker_exec_spec (cmd : Cmd) (options : List CmdOption)
    (c : CtrlState) (d : SerialState) :
    (cmd = Cmd.STOP → worker_exec cmd options c d = StepRes.stop c d) ∧
    (∀ c' d', worker_exec cmd options c d = StepRes.stop c' d' → cmd = Cmd.STOP) ∧
    (∀ e c' d', worker_exec cmd options c d = StepRes.crash e c' d' →
      e.isCaught = false ∧ c'.pending = false ∧ c'.closed = c.closed ∧
      c'.hasThread = c.hasThread ∧ c'.callLog = c.callLog ++ [⟨false, true⟩]) ∧
    (∀ c' d', worker_exec cmd options c d = StepRes.cont c' d' →
      c'.pending = false ∧ c'.closed = c.closed ∧
      c'.hasThread = c.hasThread ∧ c'.callLog = c.callLog ++ [⟨false, true⟩]) := by
  cases cmd with
  | STOP => simp [worker_exec]
  | READ =>
    obtain ⟨hl, hp, hc, ht, hq, hso, hev, hdq⟩ :=
      ceh_enter_fields true false { c with pending := true }
    have meta := ctrl_read_meta (ceh_enter true false { c with pending := true }) d options
    rcases h : ctrl_read (ceh_enter true false { c with pending := true }) d options
      with ⟨r, cr, dr⟩
    rw [h] at meta
    obtain ⟨m1, m2, m3, m4, m5, m6, m7, m8⟩ := meta
    cases r with
    | ok v =>
      cases v
      rw [worker_exec]
      rw [ceh_ok true false (fun c' d' => ctrl_read c' d' options) { c with pending := true } d cr dr h]
      simp_all
    | error e =>
      by_cases hcaught : e.isCaught
      · rw [worker_exec,
          ceh_caught true false (fun c' d' => ctrl_read c' d' options) { c with pending := true } d e cr dr h hcaught]
        simp_all
      · rw [worker_exec,
          ceh_uncaught true false (fun c' d' => ctrl_read c' d' options) { c with pending := true } d e cr dr h (by simpa using hcaught)]
        simp_all
  | WRITE =>
    obtain ⟨hl, hp, hc, ht, hq, hso, hev, hdq⟩ :=
      ceh_enter_fields true false { c with pending := true }
    have hsnd := ctrl_write_snd (ceh_enter true false { c with pending := true }) d options
    rcases h : ctrl_write (ceh_enter true false { c with pending := true }) d options
      with ⟨r, cr, dr⟩
    rw [h] at hsnd
    cases r with
    | ok v =>
      cases v
      rw [worker_exec]
      rw [ceh_ok true false (fun c' d' => ctrl_write c' d' options) { c with pending := true } d cr dr h]
      simp_all
    | error e =>
      by_cases hcaught : e.isCaught
      · rw [worker_exec,
          ceh_caught true false (fun c' d' => ctrl_write c' d' options) { c with pending := true } d e cr dr h hcaught]
        simp_all
      · rw [worker_exec,
          ceh_uncaught true false (fun c' d' => ctrl_write c' d' options) { c with pending := true } d e cr dr h (by simpa using hcaught)]
        simp_all

lemma stream_entry_ok (so pending0 : Bool) (hp : pending0 = false) :
    ∀ r ∈ (if so then [(⟨true, pending0⟩ : CallRec)] else []),
      r.pend = !r.fromStream := by
  cases so <;> simp [hp]

lemma step_entries_ok (so pending0 : Bool) (hp : pending0 = false) :
    ∀ r ∈ ((if so then [(⟨true, pending0⟩ : CallRec)] else [])
        ++ [(⟨false, true⟩ : CallRec)]),
      r.pend = !r.fromStream := by
  intro r hr
  rcases List.mem_append.mp hr with h1 | h1
  · exact stream_entry_ok so pending0 hp r h1
  · simp only [List.mem_singleton] at h1
    simp [h1]

lemma worker_step_spec (c : CtrlState) (d : SerialState) :
    ((worker_step c d).ctrl.closed = c.closed) ∧
    ((worker_step c d).ctrl.hasThread = c.hasThread) ∧
    (∀ c' d', worker_step c d = StepRes.stop c' d' →
      ∃ opts rest, c.cmd_queue = (Cmd.STOP, opts) :: rest) ∧
    (∀ e c' d', worker_step c d = StepRes.crash e c' d' → e.isCaught = false) ∧
    (c.pending = false →
      (worker_step c d).ctrl.pending = false ∧
      ∃ entries, (worker_step c d).ctrl.callLog = c.callLog ++ entries ∧
        ∀ r ∈ entries, r.pend = !r.fromStream) := by
  rcases hpoll : worker_poll c d with ⟨u, c1, d1⟩
  have ps := worker_poll_spec c d
  rw [hpoll] at ps
  obtain ⟨p1, p2, p3, p4, p5, p6, p7⟩ := ps
  simp only at p1 p2 p3 p4 p5 p6 p7
  unfold worker_step
  rw [hpoll]
  cases u with
  | some e =>
    dsimp only
    refine ⟨p1, p2, ?_, ?_, ?_⟩
    · intro c' d' h
      cases h
    · intro e' c' d' h
      cases h
      exact p7 _ rfl
    · intro hp
      refine ⟨by simpa [hp] using p5, if c.stream_output then [⟨true, c.pending⟩] else [], p6,
        stream_entry_ok c.stream_output c.pending hp⟩
  | none =>
    dsimp only
    rcases hq : c1.cmd_queue with _ | ⟨⟨cmd, options⟩, rest⟩
    · dsimp only
      refine ⟨p1, p2, ?_, ?_, ?_⟩
      · intro c' d' h
        cases h
      · intro e' c' d' h
        cases h
      · intro hp
        refine ⟨by simpa [hp] using p5, if c.stream_output then [⟨true, c.pending⟩] else [], p6,
          stream_entry_ok c.stream_output c.pending hp⟩
    · dsimp only
      obtain ⟨e1, e2, e3, e4⟩ := worker_exec_spec cmd options { c1 with cmd_queue := rest } d1
      have hqc : c.cmd_queue = (cmd, options) :: rest := by rw [← p3, hq]
      refine ⟨?_, ?_, ?_, ?_, ?_⟩
      · cases hout : worker_exec cmd options { c1 with cmd_queue := rest } d1 with
        | cont c' d' => simpa [hout, StepRes.ctrl, p1] using (e4 c' d' hout).2.1
        | stop c' d' =>
          have := e2 c' d' hout
          subst this
          rw [e1 rfl] at hout
          cases hout
          simp [StepRes.ctrl, p1]
        | crash e' c' d' => simpa [hout, StepRes.ctrl, p1] using (e3 e' c' d' hout).2.2.1
      · cases hout : worker_exec cmd options { c1 with cmd_queue := rest } d1 with
        | cont c' d' => simpa [hout, StepRes.ctrl, p2] using (e4 c' d' hout).2.2.1
        | stop c' d' =>
          have := e2 c' d' hout
          subst this
          rw [e1 rfl] at hout
          cases hout
          simp [StepRes.ctrl, p2]
        | crash e' c' d' => simpa [hout, StepRes.ctrl, p2] using (e3 e' c' d' hout).2.2.2.1
      · intro c' d' h
        have := e2 c' d' h
        subst this
        exact ⟨options, rest, hqc⟩
      · intro e' c' d' h
        exact (e3 e' c' d' h).1
      · intro hp
        cases hout : worker_exec cmd options { c1 with cmd_queue := rest } d1 with
        | cont c' d' =>
          obtain ⟨f1, -, -, f4⟩ := e4 c' d' hout
          refine ⟨by simpa [hout, StepRes.ctrl] using f1,
            (if c.stream_output then [⟨true, c.pending⟩] else []) ++ [⟨false, true⟩], ?_,
            step_entries_ok c.stream_output c.pending hp⟩
          show c'.callLog = _
          rw [f4]
          show ({ c1 with cmd_queue := rest } : CtrlState).callLog ++ _ = _
          simp only []
          rw [p6, List.append_assoc]
        | stop c' d' =>
          have := e2 c' d' hout
          subst this
          rw [e1 rfl] at hout
          cases hout
          refine ⟨by simpa [StepRes.ctrl, hp] using p5,
            (if c.stream_output then [⟨true, c.pending⟩] else []),
            by simpa [StepRes.ctrl] using p6,
            stream_entry_ok c.stream_output c.pending hp⟩
        | crash e' c' d' =>
          obtain ⟨-, f2, -, -, f5⟩ := e3 e' c' d' hout
          refine ⟨by simpa [hout, StepRes.ctrl] using f2,
            (if c.stream_output then [⟨true, c.pending⟩] else []) ++ [⟨false, true⟩], ?_,
            step_entries_ok c.stream_output c.pending hp⟩
          show c'.callLog = _
          rw [f5]
          show ({ c1 with cmd_queue := rest } : CtrlState).callLog ++ _ = _
          simp only []
          rw [p6, List.append_assoc]

lemma worker_run_preserves (fuel : Nat) (c : CtrlState) (d : SerialState) :
    ((match worker_run fuel c d with
      | .outOfFuel c' _ => c'
      | .stopped c' _ => c'
      | .crashed _ c' _ => c').closed = c.closed) ∧
    ((match worker_run fuel c d with
      | .outOfFuel c' _ => c'
      | .stopped c' _ => c'
      | .crashed _ c' _ => c').hasThread = c.hasThread) := by
  induction fuel generalizing c d with
  | zero => simp [worker_run]
  | succ n ih =>
    obtain ⟨s1, s2, -, -, -⟩ := worker_step_spec c d
    rw [worker_run]
    cases hout : worker_step c d with
    | cont c1 d1 =>
      obtain ⟨i1, i2⟩ := ih c1 d1
      rw [hout, StepRes.ctrl] at s1 s2
      exact ⟨i1.trans s1, i2.trans s2⟩
    | stop c1 d1 =>
      rw [hout, StepRes.ctrl] at s1 s2
      exact ⟨s1, s2⟩
    | crash e c1 d1 =>
      rw [hout, StepRes.ctrl] at s1 s2
      exact ⟨s1, s2⟩

/-- C1, counterexample: byte 8 (binary 0000_1000) has tracking bits `10`,
an unassigned `Tracking` value, so `Status(8)` raises `ValueError` — the
decode does not succeed for every byte in 0..255. -/
theorem status_decode_not_total : (8 : Nat) < 256 ∧ (8 >>> 2) &&& 3 = 2 ∧
    Status.decode 8 = .error .valueError := by
  decide

/-- C1, amended: for every status byte whose tracking bits (bits 2-3) are
not the unassigned pattern `10`, decoding succeeds, `raw` equals the byte,
and every field equals the value re-derived independently from the bit
positions (bit0 = ch1 mode, bit1 = ch2 mode, bits 2-3 = tracking, bit4 =
beep, bit5 = OCP, bit6 = output, bit7 = OVP); on bytes with tracking bits
`10` the decode raises `ValueError` instead. -/
theorem status_decode_roundtrip :
    ∀ b : Nat, b < 256 →
      ((b >>> 2) &&& 3 ≠ 2 → Status.decode b = .ok (Status.specDerive b)) ∧
      ((b >>> 2) &&& 3 = 2 → Status.decode b = .error .valueError) := by
  set_option maxRecDepth 4096 in decide

/-- C1, witness: the amended theorem applied at byte 255. -/
theorem status_decode_roundtrip_witness :
    Status.decode 255 = .ok (Status.specDerive 255) :=
  (status_decode_roundtrip 255 (by decide)).1 (by decide)

/-- C2, counterexample: on the 7-byte stream `"1.2345" + 'A'` (6 content
characters, then a stray non-zero byte), `read_string(fixed_length=6)`
returns the first 6 characters but the stray 7th byte is NOT consumed: it
is still on the port afterwards. -/
theorem read_string_stray_not_consumed :
    read_string [49, 46, 50, 51, 52, 53, 65] (some 6) = (.ok "1.2345", [65]) ∧
    (read_string [49, 46, 50, 51, 52, 53, 65] (some 6)).2 ≠ [] := by
  decide

/-- C2, amended: for every 7-byte stream of 6 content characters (ASCII,
non-zero, no newline at either boundary) followed by a stray byte,
`read_string(fixed_length=6)` returns exactly the first 6 characters, and
the stray 7th byte is left unconsumed on the port (a subsequent read sees
it first). -/
theorem read_string_fixed_six (a b c d e f : Char) (s : Nat)
    (ha : a.toNat < 128) (hb : b.toNat < 128) (hc : c.toNat < 128)
    (hd : d.toNat < 128) (he : e.toNat < 128) (hf : f.toNat < 128)
    (ha0 : a.toNat ≠ 0) (hb0 : b.toNat ≠ 0) (hc0 : c.toNat ≠ 0)
    (hd0 : d.toNat ≠ 0) (he0 : e.toNat ≠ 0) (hf0 : f.toNat ≠ 0)
    (han : a ≠ '\n') (hfn : f ≠ '\n') :
    read_string [a.toNat, b.toNat, c.toNat, d.toNat, e.toNat, f.toNat, s] (some 6)
      = (.ok (String.mk [a, b, c, d, e, f]), [s]) := by
  have ea : ¬ (a.toNat ≥ 128) := by omega
  have eb : ¬ (b.toNat ≥ 128) := by omega
  have ec : ¬ (c.toNat ≥ 128) := by omega
  have ed : ¬ (d.toNat ≥ 128) := by omega
  have ee : ¬ (e.toNat ≥ 128) := by omega
  have ef : ¬ (f.toNat ≥ 128) := by omega
  simp [read_string, read_string_loop, strip_result, ea, eb, ec, ed, ee, ef,
    ha0, hb0, hc0, hd0, he0, hf0, han, hfn, Char.ofNat_toNat, List.getLast?]

/-- C2, witness: the amended theorem applied at the stream
`"AAAAAB" + byte 7`. -/
theorem read_string_fixed_six_witness :
    read_string [65, 65, 65, 65, 65, 66, 7] (some 6) = (.ok "AAAAAB", [7]) :=
  read_string_fixed_six 'A' 'A' 'A' 'A' 'A' 'B' 7
    (by decide) (by decide) (by decide) (by decide) (by decide) (by decide)
    (by decide) (by decide) (by decide) (by decide) (by decide) (by decide)
    (by decide) (by decide)

/-- C6: on every terminator-based stream whose content is `"\n1.234\n"`
followed by the zero terminator, `read_string` (no `fixed_length`) returns
`"1.234"`: one leading and one trailing newline are stripped, the
terminator is consumed, and the rest of the stream is untouched. -/
theorem read_string_strips_newlines (rest : List Nat) :
    read_string ([10, 49, 46, 50, 51, 52, 10, 0] ++ rest) none
      = (.ok "1.234", rest) := by
  rfl

/-- C7: whenever the collected result is empty — the first read times out
(empty port) or hits an immediate zero terminator — `read_string` fails
with `IndexError`, which is one of the types in the `CommunicationError`
tuple the upper layers catch as communication failures. -/
theorem read_string_empty_fails (input : List Nat) (fixed_length : Option Nat)
    (h : input = [] ∨ input.head? = some 0) :
    read_string input fixed_length = (.error .indexError, input.tail) ∧
    PyErr.isCommunication .indexError = true := by
  rcases h with h | h
  · subst h
    exact ⟨rfl, rfl⟩
  · rcases input with _ | ⟨b, rest⟩
    · exact ⟨rfl, rfl⟩
    · simp only [List.head?_cons, Option.some.injEq] at h
      subst h
      exact ⟨rfl, rfl⟩

/-- C7, witness: applied to the stream holding a single zero byte. -/
theorem read_string_empty_fails_witness :
    read_string [0] none = (.error .indexError, []) ∧
    PyErr.isCommunication .indexError = true :=
  read_string_empty_fails [0] none (Or.inr rfl)

/-- The caller state of the C5 scenario: desired voltage 5.00 and current
0.500 set, then `write_setpoint()` enqueued (one WRITE command with the
SETPOINT option only), streaming off. -/
def setpointScenario : CtrlState :=
  { ctrlInit with
    voltage := some 5
    current := some (mkRat 1 2)
    cmd_queue := [(Cmd.WRITE, [CmdOption.SETPOINT])] }

/-- C5: with desired voltage 5.00 and current 0.500 and a single enqueued
`write_setpoint()` command, the worker's execution of that command sends
exactly `VSET1:05.00` then `ISET1:0.500`, in that order, and no status or
lock commands; the command is consumed and the loop keeps running.  Holds
for any bytes pending on the port, which the write never reads. -/
theorem write_setpoint_sends (input : List Nat) (portOpen : Bool) :
    (worker_step setpointScenario ⟨input, [], false, portOpen⟩).dev.sent
        = ["VSET1:05.00", "ISET1:0.500"] ∧
    (worker_step setpointScenario ⟨input, [], false, portOpen⟩).isCont = true ∧
    (worker_step setpointScenario ⟨input, [], false, portOpen⟩).ctrl.cmd_queue = [] := by
  exact ⟨rfl, rfl, rfl⟩

/-- C9: every per-channel numeric read operation — voltage setpoint,
current setpoint (parsed from the first five of six characters), output
voltage, output current, and each half of the combined output pair (once
the structurally required newline split yields two fields) — returns
`None` rather than raising whenever the reply string fails to parse as a
float. -/
theorem numeric_parse_yields_none (n : Nat) (d : SerialState) :
    (∀ r d1, send_receive d ("VSET" ++ toString n ++ "?") (some 5) = (.ok r, d1) →
      pyfloat r = none → ch_voltage_get n d = (.ok none, d1)) ∧
    (∀ r d1, send_receive d ("ISET" ++ toString n ++ "?") (some 6) = (.ok r, d1) →
      pyfloat (r.take 5) = none → ch_current_get n d = (.ok none, d1)) ∧
    (∀ r d1, send_receive d ("VOUT" ++ toString n ++ "?") (some 5) = (.ok r, d1) →
      pyfloat r = none → ch_output_voltage n d = (.ok none, d1)) ∧
    (∀ r d1, send_receive d ("IOUT" ++ toString n ++ "?") (some 5) = (.ok r, d1) →
      pyfloat r = none → ch_output_current n d = (.ok none, d1)) ∧
    (∀ r d1 vs cs,
      send_receive d ("VOUT" ++ toString n ++ "?\rIOUT" ++ toString n ++ "?") (some 11)
        = (.ok r, d1) →
      split_nl r.toList = [vs, cs] →
      pyfloat vs = none → pyfloat cs = none →
      ch_output_pair n d = (.ok (none, none), d1)) := by
  refine ⟨?_, ?_, ?_, ?_, ?_⟩
  · intro r d1 h hp
    rw [ch_voltage_get, h]
    dsimp only
    simp only [float_or_none, hp]
  · intro r d1 h hp
    rw [ch_current_get, h]
    dsimp only
    simp only [float_or_none, hp]
  · intro r d1 h hp
    rw [ch_output_voltage, h]
    dsimp only
    simp only [float_or_none, hp]
  · intro r d1 h hp
    rw [ch_output_current, h]
    dsimp only
    simp only [float_or_none, hp]
  · intro r d1 vs cs h hsplit hv hc
    rw [ch_output_pair, h]
    dsimp only
    rw [hsplit]
    dsimp only
    simp only [float_or_none, hv, hc]

/-- C9, witness: the voltage-setpoint conjunct applied to a port holding
the unparseable 5-byte reply `"AAAAA"`. -/
theorem numeric_parse_yields_none_witness :
    ch_voltage_get 1 ⟨[65, 65, 65, 65, 65], [], false, true⟩
      = (.ok none, ⟨[], ["VSET1?"], false, true⟩) :=
  (numeric_parse_yields_none 1 ⟨[65, 65, 65, 65, 65], [], false, true⟩).1
    "AAAAA" ⟨[], ["VSET1?"], false, true⟩ rfl rfl

lemma worker_step_caught_cmd (c : CtrlState) (d : SerialState) (cmd : Cmd)
    (opts : List CmdOption) (rest : List (Cmd × List CmdOption)) (e : PyErr)
    (c2 : CtrlState) (d2 : SerialState)
    (hs : c.stream_output = false)
    (hq : c.cmd_queue = (cmd, opts) :: rest)
    (hr : cmd = Cmd.READ →
      ctrl_read (ceh_enter true false { c with cmd_queue := rest, pending := true }) d opts
        = (.error e, c2, d2))
    (hw : cmd = Cmd.WRITE →
      ctrl_write (ceh_enter true false { c with cmd_queue := rest, pending := true }) d opts
        = (.error e, c2, d2))
    (hns : cmd ≠ Cmd.STOP)
    (hc : e.isCaught = true) :
    worker_step c d = StepRes.cont
      { c2 with
        event_queue := c2.event_queue ++ [(Event.DISCONNECTED, some e)]
          ++ (if cmd = Cmd.READ then [(Event.READ_FINISHED, none)] else [])
        pending := false } d2 := by
  have hpoll : worker_poll c d = (none, c, d) := by
    rw [worker_poll, hs]
    simp
  rw [worker_step, hpoll]
  dsimp only
  rw [hq]
  dsimp only
  cases cmd with
  | STOP => exact absurd rfl hns
  | READ =>
    rw [worker_exec,
      ceh_caught true false (fun c' d' => ctrl_read c' d' opts)
        { c with cmd_queue := rest, pending := true } d e c2 d2 (hr rfl) hc]
    dsimp only
    simp [List.append_assoc]
  | WRITE =>
    rw [worker_exec,
      ceh_caught true false (fun c' d' => ctrl_write c' d' opts)
        { c with cmd_queue := rest, pending := true } d e c2 d2 (hw rfl) hc]
    dsimp only
    simp

/-- C10: when a read command's execution raises a disconnect or
communication failure, the worker still publishes the `READ_FINISHED`
event after the `DISCONNECTED` event: a caller draining the event queue
after the failed read sees `DISCONNECTED` (carrying the failure) followed
by `READ_FINISHED`, and the loop continues with `pending` cleared. -/
theorem read_failure_event_order (c : CtrlState) (d : SerialState)
    (opts : List CmdOption) (rest : List (Cmd × List CmdOption)) (e : PyErr)
    (c2 : CtrlState) (d2 : SerialState)
    (hs : c.stream_output = false)
    (hq : c.cmd_queue = (Cmd.READ, opts) :: rest)
    (hexec : ctrl_read (ceh_enter true false { c with cmd_queue := rest, pending := true }) d opts
      = (.error e, c2, d2))
    (hc : e.isCaught = true) :
    worker_step c d = StepRes.cont
      { c2 with
        event_queue := c2.event_queue
          ++ [(Event.DISCONNECTED, some e), (Event.READ_FINISHED, none)]
        pending := false } d2 := by
  have h := worker_step_caught_cmd c d Cmd.READ opts rest e c2 d2 hs hq
    (fun _ => hexec) (fun hcontra => absurd hcontra (by decide)) (by decide) hc
  simpa using h

/-- The controller state of the C10 witness scenario: one enqueued read of
the output pair, streaming off. -/
def readFailCtrl : CtrlState :=
  { ctrlInit with cmd_queue := [(Cmd.READ, [CmdOption.OUTPUT_READING])] }

/-- A transport whose next write raises `SerialException` (the port is
gone), making every device call fail with `DisconnectedError`. -/
def readFailDev : SerialState := ⟨[], [], true, true⟩

/-- The controller state as `_call_error_handle` enters the failing read
of the C10 witness scenario. -/
def readFailEntered : CtrlState :=
  ceh_enter true false { readFailCtrl with cmd_queue := [], pending := true }

/-- C10, witness: the theorem applied to the concrete failing-read
scenario. -/
theorem read_failure_event_order_witness :
    worker_step readFailCtrl readFailDev = StepRes.cont
      { readFailEntered with
        event_queue := readFailEntered.event_queue
          ++ [(Event.DISCONNECTED, some .disconnectedError), (Event.READ_FINISHED, none)]
        pending := false } readFailDev :=
  read_failure_event_order readFailCtrl readFailDev [CmdOption.OUTPUT_READING] []
    .disconnectedError readFailEntered readFailDev rfl rfl (by decide) rfl

/-- A controller with streaming enabled and an idle command queue. -/
def streamCtrl : CtrlState := { ctrlInit with stream_output := true }

/-- A port holding the 11-byte combined output-pair reply
`"05.00\n0.500"` for the streaming poll. -/
def streamDev : SerialState :=
  ⟨[48, 53, 46, 48, 48, 10, 48, 46, 53, 48, 48], [], false, true⟩

/-- C3, counterexample: with streaming on and no command executing, the
worker's streaming poll performs a device call (recorded in the call log
as a streaming-site call) while the pending flag reads `false` — the
streaming poll goes through `_call_error_handle` without `set_pending`,
so `pending` is not raised for it. -/
theorem streaming_poll_pending_false :
    streamCtrl.stream_output = true ∧
    (worker_step streamCtrl streamDev).ctrl.callLog
      = [{ fromStream := true, pend := false }] := by
  decide

/-- C3, amended: starting any loop iteration with `pending = false`, every
device call the worker makes while executing an explicit read/write
command runs with `pending = true`, the streaming poll's device call runs
with `pending = false`, and `pending` reads `false` again when the
iteration ends (so it is `true` exactly during command execution, not
during the poll). -/
theorem pending_during_worker_calls (c : CtrlState) (d : SerialState)
    (hp : c.pending = false) :
    (∃ entries, (worker_step c d).ctrl.callLog = c.callLog ++ entries ∧
      ∀ r ∈ entries, r.pend = !r.fromStream) ∧
    (worker_step c d).ctrl.pending = false := by
  obtain ⟨-, -, -, -, h⟩ := worker_step_spec c d
  obtain ⟨h1, h2⟩ := h hp
  exact ⟨h2, h1⟩

/-- C3, witness: the amended theorem applied to the streaming scenario. -/
theorem pending_during_worker_calls_witness :
    (∃ entries, (worker_step streamCtrl streamDev).ctrl.callLog
        = streamCtrl.callLog ++ entries ∧
      ∀ r ∈ entries, r.pend = !r.fromStream) ∧
    (worker_step streamCtrl streamDev).ctrl.pending = false :=
  pending_during_worker_calls streamCtrl streamDev rfl

/-- The C4 counterexample state: a read of the setpoints followed by a
write of the setpoints. -/
def crashCtrl : CtrlState :=
  { ctrlInit with
    cmd_queue := [(Cmd.READ, [CmdOption.SETPOINT]), (Cmd.WRITE, [CmdOption.SETPOINT])] }

/-- A port answering every fixed-length read with `'A'` bytes, so the
setpoint replies parse to `None`. -/
def crashDev : SerialState :=
  ⟨[65, 65, 65, 65, 65, 65, 65, 65, 65, 65, 65], [], false, true⟩

/-- C4, counterexample: from a freshly started controller, a read that
gets unparseable setpoint replies stores `None`, and the following write
command formats that `None` with a float format spec, raising `TypeError`
— which `_call_error_handle` does not catch (`CommunicationError` is only
`(ValueError, IndexError)`).  The worker loop exits by this uncaught
exception although no stop command was ever enqueued. -/
theorem worker_exits_without_stop :
    (∀ q ∈ crashCtrl.cmd_queue, q.1 ≠ Cmd.STOP) ∧
    (worker_run 2 crashCtrl crashDev).errOf = some PyErr.typeError := by
  decide

lemma worker_exec_caught (c1 : CtrlState) (d1 : SerialState) (cmd : Cmd)
    (opts : List CmdOption) (e : PyErr) (c2 : CtrlState) (d2 : SerialState)
    (hr : cmd = Cmd.READ →
      ctrl_read (ceh_enter true false { c1 with pending := true }) d1 opts
        = (.error e, c2, d2))
    (hw : cmd = Cmd.WRITE →
      ctrl_write (ceh_enter true false { c1 with pending := true }) d1 opts
        = (.error e, c2, d2))
    (hns : cmd ≠ Cmd.STOP)
    (hc : e.isCaught = true) :
    worker_exec cmd opts c1 d1 = StepRes.cont
      { c2 with
        event_queue := c2.event_queue ++ [(Event.DISCONNECTED, some e)]
          ++ (if cmd = Cmd.READ then [(Event.READ_FINISHED, none)] else [])
        pending := false } d2 := by
  cases cmd with
  | STOP => exact absurd rfl hns
  | READ =>
    rw [worker_exec,
      ceh_caught true false (fun c' d' => ctrl_read c' d' opts)
        { c1 with pending := true } d1 e c2 d2 (hr rfl) hc]
    dsimp only
    simp [List.append_assoc]
  | WRITE =>
    rw [worker_exec,
      ceh_caught true false (fun c' d' => ctrl_write c' d' opts)
        { c1 with pending := true } d1 e c2 d2 (hw rfl) hc]
    dsimp only
    simp

/-- C4, amended: starting an iteration with `pending = false`: the loop
returns (stops) only when the dequeued command is STOP; a device-call
disconnect or communication failure never exits the loop — an exit by
exception happens only for an uncaught kind, namely `TypeError`
(formatting a `None` setpoint); `pending` reads `false` after the
iteration in every case; a command whose execution raises a caught
disconnect/communication failure — whatever the streaming poll did
beforehand — publishes a `DISCONNECTED` event carrying it (plus
`READ_FINISHED` for reads) and the loop continues; and a caught
disconnect/communication failure in the streaming poll itself does not
propagate either: the `DISCONNECTED` event carrying it is published, the
sample is still pushed, and the iteration proceeds to the command
dequeue. -/
theorem worker_error_handling (c : CtrlState) (d : SerialState)
    (hp : c.pending = false) :
    (∀ c1 d1, worker_step c d = StepRes.stop c1 d1 →
      ∃ opts rest, c.cmd_queue = (Cmd.STOP, opts) :: rest) ∧
    (∀ e c1 d1, worker_step c d = StepRes.crash e c1 d1 →
      e.isCaught = false ∧ e = PyErr.typeError) ∧
    ((worker_step c d).ctrl.pending = false) ∧
    (∀ (cmd : Cmd) (opts : List CmdOption) rest e c1 d1 c2 d2,
      worker_poll c d = (none, c1, d1) →
      c1.cmd_queue = (cmd, opts) :: rest →
      (cmd = Cmd.READ →
        ctrl_read (ceh_enter true false { c1 with cmd_queue := rest, pending := true }) d1 opts
          = (.error e, c2, d2)) →
      (cmd = Cmd.WRITE →
        ctrl_write (ceh_enter true false { c1 with cmd_queue := rest, pending := true }) d1 opts
          = (.error e, c2, d2)) →
      cmd ≠ Cmd.STOP →
      e.isCaught = true →
      worker_step c d = StepRes.cont
        { c2 with
          event_queue := c2.event_queue ++ [(Event.DISCONNECTED, some e)]
            ++ (if cmd = Cmd.READ then [(Event.READ_FINISHED, none)] else [])
          pending := false } d2) ∧
    (∀ e c2 d2,
      c.stream_output = true →
      ctrl_read (ceh_enter false true c) d [CmdOption.OUTPUT_READING]
        = (.error e, c2, d2) →
      e.isCaught = true →
      worker_poll c d = (none, put_sample
          { c2 with event_queue := c2.event_queue ++ [(Event.DISCONNECTED, some e)] },
        d2) ∧
      (c.cmd_queue = [] →
        worker_step c d = StepRes.cont
          (put_sample
            { c2 with event_queue := c2.event_queue ++ [(Event.DISCONNECTED, some e)] })
          d2)) := by
  obtain ⟨-, -, hstop, hcrash, hpend⟩ := worker_step_spec c d
  refine ⟨hstop, ?_, (hpend hp).1, ?_, ?_⟩
  · intro e c1 d1 h
    have hcf := hcrash e c1 d1 h
    refine ⟨hcf, ?_⟩
    cases e <;> simp_all [PyErr.isCaught, PyErr.isCommunication, PyErr.isDisconnected]
  · intro cmd opts rest e c1 d1 c2 d2 hpoll hq hr hw hns hc
    rw [worker_step, hpoll]
    dsimp only
    rw [hq]
    dsimp only
    exact worker_exec_caught { c1 with cmd_queue := rest } d1 cmd opts e c2 d2 hr hw hns hc
  · intro e c2 d2 hs hexec hc
    have hpoll : worker_poll c d = (none, put_sample
        { c2 with event_queue := c2.event_queue ++ [(Event.DISCONNECTED, some e)] },
        d2) := by
      rw [worker_poll, hs]
      rw [if_pos rfl,
        ceh_caught false true (fun c' d' => ctrl_read c' d' [CmdOption.OUTPUT_READING])
          c d e c2 d2 hexec hc]
      dsimp only
      simp
    refine ⟨hpoll, ?_⟩
    intro hq
    have meta := ctrl_read_meta (ceh_enter false true c) d [CmdOption.OUTPUT_READING]
    rw [hexec] at meta
    obtain ⟨-, mq, -, -, -, -, -, -⟩ := meta
    have hq2 : (put_sample
        { c2 with event_queue := c2.event_queue ++ [(Event.DISCONNECTED, some e)] }).cmd_queue
        = [] := by
      have henter := (ceh_enter_fields false true c).2.2.2.2.1
      simp only at mq
      simp [put_sample, mq, henter, hq]
    rw [worker_step, hpoll]
    dsimp only
    rw [hq2]

/-- The controller state as `_call_error_handle` enters the streaming
poll of the C4 witness scenario. -/
def streamFailEntered : CtrlState := ceh_enter false true streamCtrl

/-- C4, witness: the amended theorem applied to the counterexample
scenario's first iteration (the read command, which continues the loop
with `pending` back to `false`), and its streaming-poll conjunct applied
to a streaming controller whose poll fails with `DisconnectedError` —
the event is published and the poll does not propagate the failure. -/
theorem worker_error_handling_witness :
    (worker_step crashCtrl crashDev).ctrl.pending = false ∧
    worker_poll streamCtrl readFailDev
      = (none, put_sample
          { streamFailEntered with
            event_queue := streamFailEntered.event_queue
              ++ [(Event.DISCONNECTED, some .disconnectedError)] },
        readFailDev) :=
  ⟨(worker_error_handling crashCtrl crashDev rfl).2.2.1,
   ((worker_error_handling streamCtrl readFailDev rfl).2.2.2.2
      .disconnectedError streamFailEntered readFailDev rfl (by decide) rfl).1⟩

/-- C8: `close()` on a not-yet-closed controller marks it closed, drops
the worker thread, and closes the transport; any later `close()` is a
no-op returning immediately (it does not run the worker again, join, or
touch the transport) and leaves the state exactly unchanged. -/
theorem close_idempotent (fuel fuel' : Nat) (c : CtrlState) (d : SerialState)
    (c1 : CtrlState) (d1 : SerialState)
    (h : ctrl_close fuel c d = some (c1, d1)) :
    c1.closed = true ∧
    ctrl_close fuel' c1 d1 = some (c1, d1) ∧
    (c.closed = false → c1.hasThread = false ∧ d1.portOpen = false) := by
  by_cases hcl : c.closed
  · rw [ctrl_close, if_pos hcl] at h
    injection h with h
    injection h with h1 h2
    subst h1
    subst h2
    refine ⟨hcl, by rw [ctrl_close, if_pos hcl], fun hf => absurd hcl (by simp [hf])⟩
  · have hclf : c.closed = false := by simpa using hcl
    rw [ctrl_close, if_neg hcl] at h
    dsimp only at h
    by_cases hth : c.hasThread
    · rw [if_pos (by simpa [hclf] using hth)] at h
      rcases hrun : worker_run fuel
          { c with
            closed := true
            cmd_queue := c.cmd_queue ++ [(Cmd.STOP, [])] } d with
        ⟨c3, d3⟩ | ⟨c3, d3⟩ | ⟨e, c3, d3⟩
      all_goals rw [hrun] at h
      · cases h
      · obtain ⟨hc3, -⟩ := worker_run_preserves fuel
          { c with closed := true, cmd_queue := c.cmd_queue ++ [(Cmd.STOP, [])] } d
        rw [hrun] at hc3
        injection h with h
        injection h with h1 h2
        subst h1
        subst h2
        simp only at hc3
        refine ⟨by simpa using hc3, ?_, fun _ => ⟨rfl, rfl⟩⟩
        rw [ctrl_close, if_pos (by simpa using hc3)]
      · obtain ⟨hc3, -⟩ := worker_run_preserves fuel
          { c with closed := true, cmd_queue := c.cmd_queue ++ [(Cmd.STOP, [])] } d
        rw [hrun] at hc3
        injection h with h
        injection h with h1 h2
        subst h1
        subst h2
        simp only at hc3
        refine ⟨by simpa using hc3, ?_, fun _ => ⟨rfl, rfl⟩⟩
        rw [ctrl_close, if_pos (by simpa using hc3)]
    · rw [if_neg (by simpa [hclf] using hth)] at h
      injection h with h
      injection h with h1 h2
      subst h1
      subst h2
      refine ⟨rfl, by rw [ctrl_close]; simp, fun _ => ⟨by simpa using hth, rfl⟩⟩

/-- The controller state after a completed `close()` from the freshly
started state. -/
def closedCtrl : CtrlState := { ctrlInit with closed := true, hasThread := false }

/-- The transport after `close()`: port closed, nothing sent. -/
def closedDev : SerialState := ⟨[], [], false, false⟩

/-- C8, witness: the theorem applied to a concrete first `close()` on a
freshly started controller (the worker dequeues the stop command within
one iteration). -/
theorem close_idempotent_witness :
    closedCtrl.closed = true ∧
    ctrl_close 5 closedCtrl closedDev = some (closedCtrl, closedDev) ∧
    (ctrlInit.closed = false → closedCtrl.hasThread = false ∧ closedDev.portOpen = false) :=
  close_idempotent 1 5 ctrlInit ⟨[], [], false, true⟩ closedCtrl closedDev (by decide)

end Korad
